import Mathlib

/-!
Shallow embedding of the matchmaking and signaling server (the socket.io
server file of the repository): the waiting-queue pools, the registry of
active connections, the helpers `findMatch` / `addToQueue` /
`removeFromQueue`, and the inbound-event handlers, together with a
small-step semantics over inbound event sequences. Field and function
names follow the source. JS objects are modelled by value; the only field
the source ever mutates on a queue-resident object is `partnerId`, which
no code path reads back out of a queue entry, so value semantics agrees
with the source's reference semantics on every observation made here.
-/

namespace ChatServer

inductive Gender where
  | male
  | female
  | other
deriving DecidableEq, Repr

/-- The wire value of `preferredGender`: the source compares it against the
string `'all'` and otherwise uses it to index a queue pool. -/
inductive Pref where
  | all
  | male
  | female
  | other
deriving DecidableEq, Repr

inductive Tier where
  | free
  | premium
deriving DecidableEq, Repr

/-- One record of `activeConnections`: `socketId -> { userId, partnerId, gender, tier, ... }`. -/
structure User where
  socketId : String
  userId : String
  username : String
  gender : Gender
  preferredGender : Pref
  tier : Tier
  age : Nat
  partnerId : Option String := none
deriving DecidableEq, Repr

/-- The four waiting pools `waitingQueue.all/male/female/other`. -/
structure Queues where
  all : List User
  male : List User
  female : List User
  other : List User
deriving DecidableEq, Repr

/-- `waitingQueue[key]`: indexing a pool by a preferred-gender string. -/
def Queues.pool (q : Queues) : Pref → List User
  | Pref.all => q.all
  | Pref.male => q.male
  | Pref.female => q.female
  | Pref.other => q.other

/-- `waitingQueue[key].push(u)`. -/
def pushPool (q : Queues) (p : Pref) (u : User) : Queues :=
  match p with
  | Pref.all => { q with all := q.all ++ [u] }
  | Pref.male => { q with male := q.male ++ [u] }
  | Pref.female => { q with female := q.female ++ [u] }
  | Pref.other => { q with other := q.other ++ [u] }

/-- `activeConnections`, a `Map` from socket id to user record; modelled as an
association list whose `set` updates the first matching key in place, the
observational behaviour of a JS `Map`. -/
abbrev Conns := List (String × User)

def getA (k : String) : Conns → Option User
  | [] => none
  | (k1, v) :: rest => if k1 = k then some v else getA k rest

def setA (k : String) (v : User) : Conns → Conns
  | [] => [(k, v)]
  | (k1, v1) :: rest => if k1 = k then (k, v) :: rest else (k1, v1) :: setA k v rest

def delA (k : String) : Conns → Conns
  | [] => []
  | (k1, v1) :: rest => if k1 = k then rest else (k1, v1) :: delA k rest

/-- The whole mutable server state: `waitingQueue` and `activeConnections`. -/
structure ServerState where
  queues : Queues
  conns : Conns
deriving DecidableEq, Repr

def initState : ServerState := ⟨⟨[], [], [], []⟩, []⟩

/-- `removeFromQueue(socketId)`: filter the id out of every pool. -/
def removeFromQueue (sid : String) (q : Queues) : Queues :=
  ⟨q.all.filter (fun u => u.socketId != sid),
   q.male.filter (fun u => u.socketId != sid),
   q.female.filter (fun u => u.socketId != sid),
   q.other.filter (fun u => u.socketId != sid)⟩

/-- The guard `user.preferredGender && user.preferredGender !== 'all' && user.tier === 'premium'`
(after the join handler's defaulting, `preferredGender` is never falsy). -/
def wantsSpecific (u : User) : Bool :=
  decide (u.preferredGender ≠ Pref.all ∧ u.tier = Tier.premium)

/-- `addToQueue(user)`: remove the id from every pool, then push into the
pool named by the preference for a premium user with a specific preference,
otherwise into `all`. -/
def addToQueue (u : User) (q : Queues) : Queues :=
  let q1 := removeFromQueue u.socketId q
  if wantsSpecific u then pushPool q1 u.preferredGender u
  else pushPool q1 Pref.all u

/-- The pools `findMatch` scans, in scan order. -/
def queuesToCheck (u : User) (q : Queues) : List (List User) :=
  if wantsSpecific u then [q.pool u.preferredGender, q.pool Pref.all]
  else [q.pool Pref.all, q.pool Pref.male, q.pool Pref.female, q.pool Pref.other]

/-- `u.gender === user.preferredGender` (string comparison in the source). -/
def genderEq (g : Gender) (p : Pref) : Bool :=
  match g, p with
  | Gender.male, Pref.male => true
  | Gender.female, Pref.female => true
  | Gender.other, Pref.other => true
  | _, _ => false

/-- The predicate of `allWaitingUsers.find(...)`: a premium user with a
specific preference requires the waiter's gender to equal it; anyone else
matches with anyone. The waiter's own preference is never consulted. -/
def eligibleFor (user u : User) : Bool :=
  if wantsSpecific user then genderEq u.gender user.preferredGender else true

/-- The flattened scan list of `findMatch`: the checked pools, minus the
user themself. -/
def candidates (user : User) (q : Queues) : List User :=
  ((queuesToCheck user q).foldr (fun a b => a ++ b) []).filter
    (fun u => u.socketId != user.socketId)

/-- The selection half of `findMatch`: the first eligible waiter. -/
def findMatchUser (user : User) (q : Queues) : Option User :=
  (candidates user q).find? (eligibleFor user)

/-- `findMatch(user)`: on success the match is removed from every pool. -/
def findMatch (user : User) (q : Queues) : Option User × Queues :=
  match findMatchUser user q with
  | some m => (some m, removeFromQueue m.socketId q)
  | none => (none, q)

/-- `userData.age || 25` (a zero age is falsy in JS). -/
def ageOr25 (n : Nat) : Nat := if n = 0 then 25 else n

/-- The payload of a `join-queue` event, after the handler's `||` defaults. -/
structure JoinData where
  userId : String
  username : String
  gender : Gender
  preferredGender : Pref
  tier : Tier
  age : Nat
deriving DecidableEq, Repr

/-- The record the join handler builds and stores under the socket id. -/
def mkUser (sid : String) (d : JoinData) : User :=
  { socketId := sid, userId := d.userId, username := d.username,
    gender := d.gender, preferredGender := d.preferredGender,
    tier := d.tier, age := ageOr25 d.age, partnerId := none }

/-- Outbound events, with the fields the server actually sends. -/
inductive OutEvent where
  | matched (partnerId name : String) (gender : Gender) (age : Nat)
  | waiting
  | skipped
  | partnerSkipped
  | partnerDisconnected
  | offer (payload fromId : String)
  | answer (payload fromId : String)
  | ice (payload fromId : String)
  | message (text senderId timestamp : String)
deriving DecidableEq, Repr

/-- An emission: `(destination socket id, event)`; `socket.emit` targets the
handler's own socket, `io.to(id).emit` targets `id`. -/
abbrev Out := List (String × OutEvent)

/-- The `socket.on('join-queue')` handler. -/
def handleJoin (sid : String) (d : JoinData) (s : ServerState) : ServerState × Out :=
  let user := mkUser sid d
  let conns1 := setA sid user s.conns
  match findMatch user s.queues with
  | (some m, q1) =>
    match getA m.socketId conns1 with
    | none =>
      (⟨addToQueue user q1, conns1⟩, [(sid, OutEvent.waiting)])
    | some mu =>
      let user2 := { user with partnerId := some m.socketId }
      let mu2 := { mu with partnerId := some sid }
      (⟨q1, setA m.socketId mu2 (setA sid user2 conns1)⟩,
       [(sid, OutEvent.matched m.socketId m.username m.gender (ageOr25 m.age)),
        (m.socketId, OutEvent.matched sid user.username user.gender (ageOr25 user.age))])
  | (none, _) =>
    (⟨addToQueue user s.queues, conns1⟩, [(sid, OutEvent.waiting)])

/-- The shared shape of the three signaling handlers. -/
def handleSignal (mkOut : String → String → OutEvent)
    (sid payload targetId : String) (s : ServerState) : ServerState × Out :=
  match getA sid s.conns with
  | some u =>
    if u.partnerId = some targetId then (s, [(targetId, mkOut payload sid)])
    else (s, [])
  | none => (s, [])

/-- The `socket.on('message')` handler; `now` is the value of
`new Date().toISOString()` at handling time. The handler reads only
`data.text` from the inbound payload. -/
def handleMessage (sid text now : String) (s : ServerState) : ServerState × Out :=
  match getA sid s.conns with
  | some u =>
    match u.partnerId with
    | some pid => (s, [(pid, OutEvent.message text sid now)])
    | none => (s, [])
  | none => (s, [])

/-- The partner block shared verbatim by `skip`, `leave-queue` and
`disconnect`: null the partner's pointer, re-queue them, try an immediate
re-match, and notify. -/
def teardownPartner (pid : String) (s : ServerState) : ServerState × Out :=
  match getA pid s.conns with
  | none => (s, [])
  | some p =>
    let p1 := { p with partnerId := none }
    let conns1 := setA pid p1 s.conns
    let q1 := addToQueue p1 s.queues
    match findMatch p1 q1 with
    | (some m, q2) =>
      match getA m.socketId conns1 with
      | some mu =>
        let p2 := { p1 with partnerId := some m.socketId }
        let mu2 := { mu with partnerId := some pid }
        (⟨q2, setA m.socketId mu2 (setA pid p2 conns1)⟩,
         [(pid, OutEvent.matched m.socketId m.username m.gender (ageOr25 m.age)),
          (m.socketId, OutEvent.matched pid p1.username p1.gender (ageOr25 p1.age))])
      | none => (⟨q2, conns1⟩, [(pid, OutEvent.waiting)])
    | (none, q2) => (⟨q2, conns1⟩, [(pid, OutEvent.waiting)])

/-- The `socket.on('skip')` handler: possibly tear down and re-match the
partner, then remove the sender from the queues, null the sender's partner
pointer, and emit `skipped` to the sender unconditionally. -/
def handleSkip (sid : String) (s : ServerState) : ServerState × Out :=
  match getA sid s.conns with
  | some u =>
    match u.partnerId with
    | some pid =>
      let t := teardownPartner pid s
      (⟨removeFromQueue sid t.1.queues, setA sid { u with partnerId := none } t.1.conns⟩,
       ((pid, OutEvent.partnerSkipped) :: t.2) ++ [(sid, OutEvent.skipped)])
    | none =>
      (⟨removeFromQueue sid s.queues, setA sid { u with partnerId := none } s.conns⟩,
       [(sid, OutEvent.skipped)])
  | none =>
    (⟨removeFromQueue sid s.queues, s.conns⟩, [(sid, OutEvent.skipped)])

/-- The `socket.on('leave-queue')` handler: like skip but the partner gets
`partner-disconnected` and the sender gets no reply. -/
def handleLeave (sid : String) (s : ServerState) : ServerState × Out :=
  match getA sid s.conns with
  | some u =>
    match u.partnerId with
    | some pid =>
      let t := teardownPartner pid s
      (⟨removeFromQueue sid t.1.queues, setA sid { u with partnerId := none } t.1.conns⟩,
       (pid, OutEvent.partnerDisconnected) :: t.2)
    | none =>
      (⟨removeFromQueue sid s.queues, setA sid { u with partnerId := none } s.conns⟩, [])
  | none =>
    (⟨removeFromQueue sid s.queues, s.conns⟩, [])

/-- The `socket.on('disconnect')` handler: like leave but the sender's
record is deleted from the registry. -/
def handleDisconnect (sid : String) (s : ServerState) : ServerState × Out :=
  match getA sid s.conns with
  | some u =>
    match u.partnerId with
    | some pid =>
      let t := teardownPartner pid s
      (⟨removeFromQueue sid t.1.queues, delA sid t.1.conns⟩,
       (pid, OutEvent.partnerDisconnected) :: t.2)
    | none =>
      (⟨removeFromQueue sid s.queues, delA sid s.conns⟩, [])
  | none =>
    (⟨removeFromQueue sid s.queues, delA sid s.conns⟩, [])

/-- Inbound events, tagged with the sending socket id. A message event
carries the client-supplied sender and timestamp fields (which the server
ignores) and the server clock reading `now` at handling time. -/
inductive Event where
  | join (sid : String) (d : JoinData)
  | offer (sid payload targetId : String)
  | answer (sid payload targetId : String)
  | ice (sid payload targetId : String)
  | message (sid text clientSender clientTs now : String)
  | skip (sid : String)
  | leave (sid : String)
  | disconnect (sid : String)
deriving DecidableEq, Repr

def step (s : ServerState) : Event → ServerState × Out
  | Event.join sid d => handleJoin sid d s
  | Event.offer sid payload targetId => handleSignal OutEvent.offer sid payload targetId s
  | Event.answer sid payload targetId => handleSignal OutEvent.answer sid payload targetId s
  | Event.ice sid payload targetId => handleSignal OutEvent.ice sid payload targetId s
  | Event.message sid text _ _ now => handleMessage sid text now s
  | Event.skip sid => handleSkip sid s
  | Event.leave sid => handleLeave sid s
  | Event.disconnect sid => handleDisconnect sid s

/-- Run a sequence of inbound events, accumulating emissions in order. -/
def run (s : ServerState) : List Event → ServerState × Out
  | [] => (s, [])
  | e :: rest => ((run (step s e).1 rest).1, (step s e).2 ++ (run (step s e).1 rest).2)

/-- The sender field of a relayed outbound event: `fromId` of a signaling
event, `sender` of a message; other outbound events relay nothing. -/
def relaySender : OutEvent → Option String
  | OutEvent.offer _ f => some f
  | OutEvent.answer _ f => some f
  | OutEvent.ice _ f => some f
  | OutEvent.message _ sndr _ => some sndr
  | _ => none

/-- The three signaling event kinds, to state one property of all three handlers. -/
inductive SigKind where
  | offer
  | answer
  | ice
deriving DecidableEq, Repr

def sigEvent : SigKind → String → String → String → Event
  | SigKind.offer, sid, payload, targetId => Event.offer sid payload targetId
  | SigKind.answer, sid, payload, targetId => Event.answer sid payload targetId
  | SigKind.ice, sid, payload, targetId => Event.ice sid payload targetId

def sigOut : SigKind → String → String → OutEvent
  | SigKind.offer, payload, fromId => OutEvent.offer payload fromId
  | SigKind.answer, payload, fromId => OutEvent.answer payload fromId
  | SigKind.ice, payload, fromId => OutEvent.ice payload fromId

/-- Membership of a socket id in some waiting pool. -/
def inAnyQueue (sid : String) (q : Queues) : Bool :=
  (q.all ++ q.male ++ q.female ++ q.other).any (fun u => u.socketId == sid)

/-- The two replies a `join-queue` sender can receive. -/
def isJoinReply : OutEvent → Bool
  | OutEvent.matched _ _ _ _ => true
  | OutEvent.waiting => true
  | _ => false

/-- Concrete profiles for the counterexample traces and witnesses. -/
def dAna : JoinData := ⟨"u1", "Ana", Gender.female, Pref.all, Tier.free, 22⟩

def dBen : JoinData := ⟨"u2", "Ben", Gender.male, Pref.all, Tier.free, 24⟩

def dCal : JoinData := ⟨"u3", "Cal", Gender.other, Pref.all, Tier.free, 30⟩

/-- A premium waiter whose stated preference is `male`. -/
def dPia : JoinData := ⟨"u4", "Pia", Gender.female, Pref.male, Tier.premium, 28⟩

/-- A premium joiner whose stated preference is `female`. -/
def dJoe : JoinData := ⟨"u5", "Joe", Gender.male, Pref.female, Tier.premium, 30⟩

/-- A free user who nevertheless states a specific preference. -/
def dFred : JoinData := ⟨"u6", "Fred", Gender.male, Pref.female, Tier.free, 20⟩

/-- c1 and c2 pair, c3 waits, then c1 skips: the server re-queues c2 and
immediately re-matches c2 with c3. -/
def skipRematchTrace : List Event :=
  [Event.join "c1" dAna, Event.join "c2" dBen, Event.join "c3" dCal, Event.skip "c1"]

/-- a and b pair, then a sends a second `join-queue`. -/
def rejoinTrace : List Event :=
  [Event.join "a" dAna, Event.join "b" dBen, Event.join "a" dAna]

/-- A premium waiter with preference `male` waits, then a free female joins. -/
def premiumWaiterTrace : List Event := [Event.join "w" dPia, Event.join "c" dAna]

/-- a and b pair, c waits, then a re-sends `join-queue` and is paired with c,
leaving b's partner pointer pointing at a. -/
def staleRejoinTrace : List Event :=
  [Event.join "a" dAna, Event.join "b" dBen, Event.join "c" dCal, Event.join "a" dAna]

/-- A queue whose `female` pool holds one free female waiter. -/
def qFemalePool : Queues := ⟨[], [], [mkUser "x" dAna], []⟩

/-- A state in which a and b are Paired with each other and no one waits. -/
def sPairAB : ServerState :=
  ⟨⟨[], [], [], []⟩,
   [("a", { mkUser "a" dAna with partnerId := some "b" }),
    ("b", { mkUser "b" dBen with partnerId := some "a" })]⟩

/-- A state with one registered, unpaired, unqueued connection. -/
def sIdleI : ServerState := ⟨⟨[], [], [], []⟩, [("i", mkUser "i" dAna)]⟩

/-- A queue with waiters in the `all` and `male` pools. -/
def qMix : Queues := ⟨[mkUser "x" dAna], [mkUser "y" dBen], [], []⟩

/-- A state whose `all` pool holds a waiter with no registry record. -/
def sGhost : ServerState := ⟨⟨[mkUser "g" dCal], [], [], []⟩, []⟩

/-! Helper lemmas about the registry and the queue operations. -/

theorem setA_setA (k : String) (v : User) (l : Conns) :
    setA k v (setA k v l) = setA k v l := by
  induction l with
  | nil => simp [setA]
  | cons hd tl ih =>
    obtain ⟨k1, v1⟩ := hd
    by_cases hk : k1 = k <;> simp [setA, hk, ih]

theorem setA_of_getA (k : String) (v : User) (l : Conns) (h : getA k l = some v) :
    setA k v l = l := by
  induction l with
  | nil => simp [getA] at h
  | cons hd tl ih =>
    obtain ⟨k1, v1⟩ := hd
    by_cases hk : k1 = k
    · subst hk
      simp [getA] at h
      simp [setA, h]
    · simp [getA, hk] at h
      simp [setA, hk, ih h]

theorem filter_self_idem {α : Type} (p : α → Bool) (l : List α) :
    (l.filter p).filter p = l.filter p := by
  induction l with
  | nil => rfl
  | cons hd tl ih =>
    by_cases hp : p hd <;> simp [List.filter_cons, hp, ih]

theorem find?_const_true {α : Type} (l : List α) :
    l.find? (fun _ => true) = l.head? := by
  cases l <;> simp [List.find?]

theorem removeFromQueue_idem (sid : String) (q : Queues) :
    removeFromQueue sid (removeFromQueue sid q) = removeFromQueue sid q := by
  simp [removeFromQueue, filter_self_idem]

theorem removeFromQueue_pushPool_self (u : User) (p : Pref) (q : Queues) :
    removeFromQueue u.socketId (pushPool q p u) = removeFromQueue u.socketId q := by
  cases p <;>
    simp [pushPool, removeFromQueue, List.filter_append, List.filter_cons]

theorem addToQueue_unfold (u : User) (q : Queues) :
    addToQueue u q =
      if wantsSpecific u then pushPool (removeFromQueue u.socketId q) u.preferredGender u
      else pushPool (removeFromQueue u.socketId q) Pref.all u := rfl

theorem addToQueue_idem (u : User) (q : Queues) :
    addToQueue u (addToQueue u q) = addToQueue u q := by
  simp only [addToQueue_unfold]
  by_cases hw : wantsSpecific u <;>
    simp [hw, removeFromQueue_pushPool_self, removeFromQueue_idem]

theorem filter_pool_addToQueue (u : User) (q : Queues) (x : Pref) :
    ((addToQueue u q).pool x).filter (fun v => v.socketId != u.socketId) =
      ((q.pool x).filter (fun v => v.socketId != u.socketId)) := by
  simp only [addToQueue_unfold]
  by_cases hw : wantsSpecific u <;>
    [cases hp : u.preferredGender; skip] <;> cases x <;>
    simp [hw, pushPool, Queues.pool, removeFromQueue, List.filter_append,
      List.filter_cons, filter_self_idem]

theorem candidates_addToQueue_self (u : User) (q : Queues) :
    candidates u (addToQueue u q) = candidates u q := by
  unfold candidates queuesToCheck
  by_cases hw : wantsSpecific u <;>
    simp [hw, List.filter_append, filter_pool_addToQueue]

theorem findMatchUser_addToQueue_self (u : User) (q : Queues) :
    findMatchUser u (addToQueue u q) = findMatchUser u q := by
  unfold findMatchUser
  rw [candidates_addToQueue_self]

theorem removeFromQueue_noop (sid : String) (q : Queues)
    (h : inAnyQueue sid q = false) : removeFromQueue sid q = q := by
  unfold inAnyQueue at h
  simp [List.any_append, Bool.or_eq_false_iff, List.any_eq_false] at h
  cases q with
  | mk a m f o =>
    unfold removeFromQueue
    simp only [Queues.mk.injEq]
    refine ⟨?_, ?_, ?_, ?_⟩ <;> (apply List.filter_eq_self.mpr; intro v hv) <;> simp_all

theorem user_partner_eta (u : User) (h : u.partnerId = none) :
    ({ u with partnerId := none } : User) = u := by
  cases u
  simp_all

theorem join_step_no_match (s : ServerState) (sid : String) (d : JoinData)
    (h : findMatchUser (mkUser sid d) s.queues = none) :
    step s (Event.join sid d) =
      (⟨addToQueue (mkUser sid d) s.queues, setA sid (mkUser sid d) s.conns⟩,
       [(sid, OutEvent.waiting)]) := by
  simp only [step, handleJoin, findMatch, h]

/-! No handler other than the four relay handlers ever emits an outbound
event that carries a sender field. -/

theorem no_relay_of_mem_join {x : String} {ev : OutEvent} (sid : String) (d : JoinData)
    (s : ServerState) (h : (x, ev) ∈ (handleJoin sid d s).2) : relaySender ev = none := by
  unfold handleJoin at h
  dsimp only at h
  split at h
  · split at h
    · simp at h
      obtain ⟨-, rfl⟩ := h
      rfl
    · simp at h
      rcases h with ⟨-, rfl⟩ | ⟨-, rfl⟩ <;> rfl
  · simp at h
    obtain ⟨-, rfl⟩ := h
    rfl

theorem no_relay_of_mem_teardown {x : String} {ev : OutEvent} (pid : String)
    (s : ServerState) (h : (x, ev) ∈ (teardownPartner pid s).2) : relaySender ev = none := by
  unfold teardownPartner at h
  split at h
  · simp at h
  · dsimp only at h
    split at h
    · split at h
      · simp at h
        rcases h with ⟨-, rfl⟩ | ⟨-, rfl⟩ <;> rfl
      · simp at h
        obtain ⟨-, rfl⟩ := h
        rfl
    · simp at h
      obtain ⟨-, rfl⟩ := h
      rfl

theorem no_relay_of_mem_skip {x : String} {ev : OutEvent} (sid : String)
    (s : ServerState) (h : (x, ev) ∈ (handleSkip sid s).2) : relaySender ev = none := by
  unfold handleSkip at h
  dsimp only at h
  split at h
  · split at h
    · simp at h
      rcases h with ⟨-, rfl⟩ | hm | ⟨-, rfl⟩
      · rfl
      · exact no_relay_of_mem_teardown _ _ hm
      · rfl
    · simp at h
      obtain ⟨-, rfl⟩ := h
      rfl
  · simp at h
    obtain ⟨-, rfl⟩ := h
    rfl

theorem no_relay_of_mem_leave {x : String} {ev : OutEvent} (sid : String)
    (s : ServerState) (h : (x, ev) ∈ (handleLeave sid s).2) : relaySender ev = none := by
  unfold handleLeave at h
  dsimp only at h
  split at h
  · split at h
    · simp at h
      rcases h with ⟨-, rfl⟩ | hm
      · rfl
      · exact no_relay_of_mem_teardown _ _ hm
    · simp at h
  · simp at h

theorem no_relay_of_mem_disconnect {x : String} {ev : OutEvent} (sid : String)
    (s : ServerState) (h : (x, ev) ∈ (handleDisconnect sid s).2) : relaySender ev = none := by
  unfold handleDisconnect at h
  dsimp only at h
  split at h
  · split at h
    · simp at h
      rcases h with ⟨-, rfl⟩ | hm
      · rfl
      · exact no_relay_of_mem_teardown _ _ hm
    · simp at h
  · simp at h

/-! The claims. -/

/-- Claim C1 (code_bug evidence): after the trace join c1, join c2, join c3,
skip c1, connection c2 is Paired with c3 yet still sits in the `all` pool —
the skip handler re-queues the abandoned partner before the re-match and
never removes them from the pool when the re-match succeeds, violating the
exclusion invariant. -/
theorem skip_rematch_leaves_partner_in_queue :
    ((getA "c2" (run initState skipRematchTrace).1.conns).map User.partnerId =
      some (some "c3")) ∧
    ((run initState skipRematchTrace).1.queues.all.map User.socketId = ["c2"]) := by
  decide

/-- Claim C2 (code_bug evidence): after a and b pair and a re-sends
`join-queue`, the registry holds b with partner a but a with no partner —
the join handler overwrites a's record with a fresh one, so partner
symmetry is broken. -/
theorem rejoin_breaks_partner_symmetry :
    ((getA "b" (run initState rejoinTrace).1.conns).map User.partnerId = some (some "a")) ∧
    ((getA "a" (run initState rejoinTrace).1.conns).map User.partnerId = some none) := by
  decide

/-- Claim C3 counterexample: the pairing (c, w) completes although the
waiting side w is premium with preference `male` and the joining side c has
gender `female` — a waiting premium user's preference is not honored when a
free user joins. -/
theorem preference_honor_counterexample :
    ((getA "w" (run initState premiumWaiterTrace).1.conns).map
        (fun u => (u.tier, u.preferredGender, u.partnerId)) =
      some (Tier.premium, Pref.male, some "c")) ∧
    ((getA "c" (run initState premiumWaiterTrace).1.conns).map
        (fun u => (u.gender, u.partnerId)) = some (Gender.female, some "w")) ∧
    genderEq Gender.female Pref.male = false := by
  decide

/-- Claim C3 (amended): for every pairing completed by `findMatch` where the
joining side is premium with a specific (non-any) preferred gender, the
selected waiter's gender equals that preference. (The waiting side's
preference is not checked by the code.) -/
theorem findMatch_honors_joiner_preference (user : User) (q : Queues) (m : User)
    (q2 : Queues) (hfm : findMatch user q = (some m, q2))
    (hp : user.tier = Tier.premium) (hg : user.preferredGender ≠ Pref.all) :
    genderEq m.gender user.preferredGender = true := by
  have hw : wantsSpecific user = true := by
    unfold wantsSpecific
    simp [hp, hg]
  unfold findMatch at hfm
  cases hm : findMatchUser user q with
  | none => rw [hm] at hfm; simp at hfm
  | some m0 =>
    rw [hm] at hfm
    simp at hfm
    obtain ⟨rfl, -⟩ := hfm
    unfold findMatchUser at hm
    have hel := List.find?_some hm
    unfold eligibleFor at hel
    rw [hw] at hel
    simpa using hel

/-- Claim C3 witness: a premium joiner with preference `female` is matched
with the female waiter, whose gender satisfies the preference. -/
theorem findMatch_honors_joiner_preference_witness :
    genderEq (mkUser "x" dAna).gender (mkUser "j" dJoe).preferredGender = true :=
  findMatch_honors_joiner_preference (mkUser "j" dJoe) qFemalePool (mkUser "x" dAna)
    (removeFromQueue "x" qFemalePool) (by decide) rfl (by decide)

/-- Claim C4 counterexample: in the reachable state where a re-joined and is
now Paired with c while b's pointer still names a, b's offer targeted at a
is delivered to a with from_id b, although a's current partner is c — the
claim as stated (from_id equals the receiver's current partner) is false. -/
theorem relay_confinement_counterexample :
    ((step (run initState staleRejoinTrace).1 (Event.offer "b" "blob" "a")).2 =
      [("a", OutEvent.offer "blob" "b")]) ∧
    ((getA "a" (step (run initState staleRejoinTrace).1
        (Event.offer "b" "blob" "a")).1.conns).map User.partnerId = some (some "c")) := by
  decide

/-- Claim C4 (amended): every outbound offer/answer/ice-candidate/message
delivered to a connection x carries a sender f whose registry record, at
delivery time, has partner pointer equal to x: relays run only along the
sender's partner edge. (The receiver's own pointer can differ once
symmetry is broken.) -/
theorem relay_from_sender_partner (s : ServerState) (e : Event) (x f : String)
    (ev : OutEvent) (hmem : (x, ev) ∈ (step s e).2) (hf : relaySender ev = some f) :
    (getA f (step s e).1.conns).map User.partnerId = some (some x) := by
  cases e with
  | join sid d =>
    rw [no_relay_of_mem_join sid d s hmem] at hf
    cases hf
  | skip sid =>
    rw [no_relay_of_mem_skip sid s hmem] at hf
    cases hf
  | leave sid =>
    rw [no_relay_of_mem_leave sid s hmem] at hf
    cases hf
  | disconnect sid =>
    rw [no_relay_of_mem_disconnect sid s hmem] at hf
    cases hf
  | offer sid payload targetId =>
    simp only [step, handleSignal] at hmem ⊢
    split at hmem
    · split at hmem
      · simp at hmem
        obtain ⟨rfl, rfl⟩ := hmem
        simp [relaySender] at hf
        subst hf
        next u heq hcp => simp [heq, hcp]
      · simp at hmem
    · simp at hmem
  | answer sid payload targetId =>
    simp only [step, handleSignal] at hmem ⊢
    split at hmem
    · split at hmem
      · simp at hmem
        obtain ⟨rfl, rfl⟩ := hmem
        simp [relaySender] at hf
        subst hf
        next u heq hcp => simp [heq, hcp]
      · simp at hmem
    · simp at hmem
  | ice sid payload targetId =>
    simp only [step, handleSignal] at hmem ⊢
    split at hmem
    · split at hmem
      · simp at hmem
        obtain ⟨rfl, rfl⟩ := hmem
        simp [relaySender] at hf
        subst hf
        next u heq hcp => simp [heq, hcp]
      · simp at hmem
    · simp at hmem
  | message sid text clientSender clientTs now =>
    simp only [step, handleMessage] at hmem ⊢
    split at hmem
    · split at hmem
      · simp at hmem
        obtain ⟨rfl, rfl⟩ := hmem
        simp [relaySender] at hf
        subst hf
        next u heq pid hcp => simp [heq, hcp]
      · simp at hmem
    · simp at hmem

/-- Claim C4 witness: a's offer to partner b is delivered to b, and a's
record names b as partner at delivery time. -/
theorem relay_from_sender_partner_witness :
    (getA "a" (step sPairAB (Event.offer "a" "pl" "b")).1.conns).map User.partnerId =
      some (some "b") :=
  relay_from_sender_partner sPairAB (Event.offer "a" "pl" "b") "b" "a"
    (OutEvent.offer "pl" "a") (by decide) rfl

/-- Claim C5 counterexample: after b waits and a joins (they pair), a second
`join-queue` from a changes the final state — the second join is not
ignored. -/
theorem join_twice_differs_after_match :
    (run initState [Event.join "b" dBen, Event.join "a" dAna, Event.join "a" dAna]).1 ≠
      (run initState [Event.join "b" dBen, Event.join "a" dAna]).1 := by
  decide

/-- Claim C5 (amended): when the first `join-queue` finds no match (the
sender is enqueued and told waiting), a second identical `join-queue` leaves
the registry, queue pools and partner pointers exactly as after the first,
emitting one more `waiting`. -/
theorem join_twice_idem_when_waiting (s : ServerState) (sid : String) (d : JoinData)
    (h : findMatchUser (mkUser sid d) s.queues = none) :
    run s [Event.join sid d, Event.join sid d] =
      ((run s [Event.join sid d]).1,
       [(sid, OutEvent.waiting), (sid, OutEvent.waiting)]) := by
  have h1 := join_step_no_match s sid d h
  have h2 : findMatchUser (mkUser sid d) (addToQueue (mkUser sid d) s.queues) = none := by
    rw [findMatchUser_addToQueue_self]
    exact h
  have h3 : step (⟨addToQueue (mkUser sid d) s.queues, setA sid (mkUser sid d) s.conns⟩ :
      ServerState) (Event.join sid d) =
      (⟨addToQueue (mkUser sid d) s.queues, setA sid (mkUser sid d) s.conns⟩,
       [(sid, OutEvent.waiting)]) := by
    simp only [step, handleJoin, findMatch, h2]
    rw [addToQueue_idem, setA_setA]
  simp [run, h1, h3]

/-- Claim C5 witness: two joins from a on the empty state end in the state
one join produces, with two `waiting` replies. -/
theorem join_twice_idem_when_waiting_witness :
    run initState [Event.join "a" dAna, Event.join "a" dAna] =
      ((run initState [Event.join "a" dAna]).1,
       [("a", OutEvent.waiting), ("a", OutEvent.waiting)]) :=
  join_twice_idem_when_waiting initState "a" dAna rfl

/-- Claim C6 counterexample: a skip from a connection that is in no queue
and has no partner leaves the state unchanged but does emit an event — the
sender always receives `skipped`, so the claim's "no outbound event to any
connection including the sender" is false. -/
theorem skip_idle_emits_skipped :
    (step initState (Event.skip "z")).1 = initState ∧
    (step initState (Event.skip "z")).2 ≠ [] := by
  decide

/-- Claim C6 (amended): skip from a connection with no partner and in no
queue changes nothing — registry, pools and partner pointers are unchanged —
and the only emission is a single `skipped` to the sender. -/
theorem skip_idle_noop (s : ServerState) (sid : String)
    (hq : inAnyQueue sid s.queues = false)
    (hp : (getA sid s.conns).bind User.partnerId = none) :
    step s (Event.skip sid) = (s, [(sid, OutEvent.skipped)]) := by
  have hrfq : removeFromQueue sid s.queues = s.queues := removeFromQueue_noop sid s.queues hq
  cases hga : getA sid s.conns with
  | none =>
    simp only [step, handleSkip, hga, hrfq]
  | some u =>
    have hpn : u.partnerId = none := by
      rw [hga] at hp
      simpa using hp
    simp only [step, handleSkip, hga, hpn, hrfq, user_partner_eta u hpn,
      setA_of_getA sid u s.conns hga]

/-- Claim C6 witness: skip from the registered, idle connection i returns
the state unchanged with a single `skipped` reply. -/
theorem skip_idle_noop_witness :
    step sIdleI (Event.skip "i") = (sIdleI, [("i", OutEvent.skipped)]) :=
  skip_idle_noop sIdleI "i" rfl rfl

/-- Claim C7: a signaling event of any of the three kinds is forwarded to
target_id — with target_id stripped and from_id set to the sender — exactly
when the sender is registered with partner pointer equal to target_id, and
is otherwise dropped with no emission; the state never changes. -/
theorem signaling_forward_iff_partner (k : SigKind) (s : ServerState)
    (sid payload targetId : String) :
    step s (sigEvent k sid payload targetId) =
      (s, if (getA sid s.conns).map User.partnerId = some (some targetId)
          then [(targetId, sigOut k payload sid)] else []) := by
  cases k <;>
    simp only [sigEvent, sigOut, step, handleSignal] <;>
    cases hga : getA sid s.conns <;>
    simp [hga] <;>
    rename_i u <;>
    by_cases hcp : u.partnerId = some targetId <;>
    simp [hcp]

/-- Claim C8: a message from a sender with a partner pointer is delivered to
that partner carrying the inbound text, the sender's connection id, and the
server clock reading `now` (the value of `new Date().toISOString()` at
handling time); the client-supplied sender and timestamp fields never
appear in the output, and a partnerless or unregistered sender elicits
nothing. -/
theorem message_server_stamped (s : ServerState)
    (sid text clientSender clientTs now : String) :
    step s (Event.message sid text clientSender clientTs now) =
      (s, match (getA sid s.conns).map User.partnerId with
          | some (some pid) => [(pid, OutEvent.message text sid now)]
          | _ => []) := by
  simp only [step, handleMessage]
  cases hga : getA sid s.conns with
  | none => rfl
  | some u => cases hcp : u.partnerId <;> simp [hcp]

/-- Claim C9: a non-premium user's non-any preference is ignored — they are
enqueued in the `all` pool, and the scan on their behalf covers every pool
with no gender filter (the first waiter other than themself, in pool order
all, male, female, other, is selected). -/
theorem free_preference_downgraded (u : User) (q : Queues)
    (hfree : u.tier ≠ Tier.premium) :
    addToQueue u q = pushPool (removeFromQueue u.socketId q) Pref.all u ∧
    findMatchUser u q =
      ((q.all ++ (q.male ++ (q.female ++ (q.other ++ [])))).filter
        (fun v : User => v.socketId != u.socketId)).head? := by
  have hw : wantsSpecific u = false := by
    unfold wantsSpecific
    simp [hfree]
  constructor
  · rw [addToQueue_unfold, hw]
    simp
  · unfold findMatchUser candidates queuesToCheck
    rw [hw]
    have he : eligibleFor u = fun _ => true := by
      funext v
      unfold eligibleFor
      rw [hw]
      simp
    rw [he, find?_const_true]
    simp [Queues.pool, List.foldr]

/-- Claim C9 witness: the free user Fred, despite stating preference
`female`, is enqueued in the `all` pool and scans with no gender filter. -/
theorem free_preference_downgraded_witness :
    addToQueue (mkUser "f" dFred) qMix =
      pushPool (removeFromQueue (mkUser "f" dFred).socketId qMix) Pref.all
        (mkUser "f" dFred) ∧
    findMatchUser (mkUser "f" dFred) qMix =
      ((qMix.all ++ (qMix.male ++ (qMix.female ++ (qMix.other ++ [])))).filter
        (fun v : User => v.socketId != (mkUser "f" dFred).socketId)).head? :=
  free_preference_downgraded (mkUser "f" dFred) qMix (by decide)

/-- Claim C10: every `join-queue` sends the joiner exactly one reply, and
every emission of the join handler is a `matched` or a `waiting`; moreover,
when the scan selects a waiter with no registry record, the joiner is
enqueued (after the ghost waiter is dropped from the pools) and told
`waiting`. -/
theorem join_replies_exactly_once (s : ServerState) (sid : String) (d : JoinData) :
    ((((step s (Event.join sid d)).2.filter (fun p => p.1 == sid)).length = 1) ∧
      ((step s (Event.join sid d)).2.all (fun p => isJoinReply p.2) = true)) ∧
    (∀ m : User, findMatchUser (mkUser sid d) s.queues = some m →
      getA m.socketId (setA sid (mkUser sid d) s.conns) = none →
      step s (Event.join sid d) =
        (⟨addToQueue (mkUser sid d) (removeFromQueue m.socketId s.queues),
          setA sid (mkUser sid d) s.conns⟩, [(sid, OutEvent.waiting)])) := by
  constructor
  · cases hm : findMatchUser (mkUser sid d) s.queues with
    | none =>
      simp only [step, handleJoin, findMatch, hm]
      simp [isJoinReply]
    | some m =>
      have hne : (m.socketId == sid) = false := by
        have hmem := List.mem_of_find?_eq_some hm
        unfold candidates at hmem
        rw [List.mem_filter] at hmem
        simpa using hmem.2
      simp only [step, handleJoin, findMatch, hm]
      cases hga : getA m.socketId (setA sid (mkUser sid d) s.conns) with
      | none => simp [isJoinReply]
      | some mu => simp [isJoinReply, hne]
  · intro m hm hga
    simp only [step, handleJoin, findMatch, hm, hga]

/-- Claim C10 witness: joining against a pool whose only waiter has no
registry record enqueues the joiner and replies `waiting`. -/
theorem join_replies_exactly_once_witness :
    step sGhost (Event.join "j" dAna) =
      (⟨addToQueue (mkUser "j" dAna) (removeFromQueue (mkUser "g" dCal).socketId
          sGhost.queues), setA "j" (mkUser "j" dAna) sGhost.conns⟩,
       [("j", OutEvent.waiting)]) :=
  (join_replies_exactly_once sGhost "j" dAna).2 (mkUser "g" dCal) (by decide) (by decide)

end ChatServer
